import Mathlib

/-!
Verification of the vitals-to-risk core of `data/build_health_risk_dataset.py`:
the text extractor `vitals_to_text` and the rule-based classifier
`assign_risk_and_recommendation`.

Rows coming from `pandas` carry, for each named column, either a rational
number, the floating-point NaN, or nothing (absent key / null).  NaN is truthy
in Python (so it survives `x or 0`) and compares false against every number;
both behaviours are modelled exactly.
-/

namespace ElixirEdge

/-- A numeric cell value as Python sees it: a rational number, or the
floating-point NaN, which fails every comparison. -/
inductive Val where
  | num (q : ℚ)
  | nan
deriving DecidableEq

/-- One input row of the daily summary: each of the eight named fields either
holds a value or is absent (`none` models both a missing key and a null,
which the two source functions treat identically). -/
structure Row where
  HR_avg : Option Val
  HR_max : Option Val
  HR_resting : Option Val
  SpO2_avg : Option Val
  Steps : Option Val
  Intensity_min : Option Val
  Calories : Option Val
  Sleep_total_min : Option Val
deriving DecidableEq

/-- Python `float(row.get(k) or 0)`: an absent key (or null) reads as `0`;
NaN is truthy, so it survives the `or` unchanged.  A stored `0` is falsy and
is replaced by the literal `0`, which is the same value. -/
def pyOr0 : Option Val → Val
  | none => Val.num 0
  | some v => v

/-- Python `v > c` on a possibly-NaN float: NaN compares false. -/
def Val.gt : Val → ℚ → Bool
  | Val.num q, c => decide (c < q)
  | Val.nan, _ => false

/-- Python `v < c` on a possibly-NaN float: NaN compares false. -/
def Val.lt : Val → ℚ → Bool
  | Val.num q, c => decide (q < c)
  | Val.nan, _ => false

/-- Python `v <= c` on a possibly-NaN float: NaN compares false. -/
def Val.le : Val → ℚ → Bool
  | Val.num q, c => decide (q ≤ c)
  | Val.nan, _ => false

/-- Python `v >= c` on a possibly-NaN float: NaN compares false. -/
def Val.ge : Val → ℚ → Bool
  | Val.num q, c => decide (c ≤ q)
  | Val.nan, _ => false

/-- Shallow embedding of `assign_risk_and_recommendation` from
`data/build_health_risk_dataset.py` (lines 58-95), branch for branch:
read the seven used fields with `float(row.get(k) or 0)`, return green on the
no-data guard, otherwise set `risk` by the Red rule, else by the Yellow rule
(which keeps a non-green `risk`), and finally look the recommendation up from
`risk`. -/
def assign_risk_and_recommendation (row : Row) : String × String :=
  let hr_avg := pyOr0 row.HR_avg
  let hr_max := pyOr0 row.HR_max
  let hr_rest := pyOr0 row.HR_resting
  let spo2 := pyOr0 row.SpO2_avg
  let intensity := pyOr0 row.Intensity_min
  let sleep_min := pyOr0 row.Sleep_total_min
  let steps := pyOr0 row.Steps
  if hr_avg.le 0 && hr_max.le 0 && spo2.le 0 && intensity.le 0 then
    ("green", "Continue normal activity. Stay hydrated.")
  else
    let risk := "green"
    let risk :=
      if (hr_avg.gt 100 || hr_max.gt 120) || (spo2.gt 0 && spo2.lt 90)
          || (intensity.gt 45 && sleep_min.lt 30) then
        "red"
      else if ((hr_avg.gt 85 && hr_avg.le 100) || (hr_max.gt 100 && hr_max.le 120))
          || (spo2.ge 90 && spo2.lt 95 && spo2.gt 0)
          || (intensity.gt 20 && sleep_min.lt 60)
          || (steps.gt 5000 && hr_avg.gt 80 && sleep_min.lt 300) then
        if risk == "green" then "yellow" else risk
      else risk
    let recText :=
      if risk == "red" then
        "Heat stress or fatigue risk. Rest and rehydrate. Seek shade. Recommend rest in 10 min."
      else if risk == "yellow" then
        "Monitor vital signs. Consider rest and hydration soon."
      else
        "Continue normal activity. Stay hydrated."
    (risk, recText)

/-- The spec's no-data guard: `hr_avg<=0 AND hr_max<=0 AND spo2_avg<=0 AND
intensity_min<=0`, on the fields as the classifier reads them. -/
def noDataB (row : Row) : Bool :=
  (pyOr0 row.HR_avg).le 0 && (pyOr0 row.HR_max).le 0
    && (pyOr0 row.SpO2_avg).le 0 && (pyOr0 row.Intensity_min).le 0

/-- The spec's Red condition: `hr_avg > 100 OR hr_max > 120`, or
`spo2_avg > 0 AND spo2_avg < 90`, or `intensity_min > 45 AND
sleep_total_min < 30`, on the fields as the classifier reads them. -/
def redB (row : Row) : Bool :=
  ((pyOr0 row.HR_avg).gt 100 || (pyOr0 row.HR_max).gt 120)
    || ((pyOr0 row.SpO2_avg).gt 0 && (pyOr0 row.SpO2_avg).lt 90)
    || ((pyOr0 row.Intensity_min).gt 45 && (pyOr0 row.Sleep_total_min).lt 30)

/-- The spec's Yellow condition: `85 < hr_avg <= 100 OR 100 < hr_max <= 120`,
or `90 <= spo2_avg < 95 AND spo2_avg > 0`, or `intensity_min > 20 AND
sleep_total_min < 60`, or `steps > 5000 AND hr_avg > 80 AND
sleep_total_min < 300`, on the fields as the classifier reads them. -/
def yellowB (row : Row) : Bool :=
  (((pyOr0 row.HR_avg).gt 85 && (pyOr0 row.HR_avg).le 100)
      || ((pyOr0 row.HR_max).gt 100 && (pyOr0 row.HR_max).le 120))
    || ((pyOr0 row.SpO2_avg).ge 90 && (pyOr0 row.SpO2_avg).lt 95 && (pyOr0 row.SpO2_avg).gt 0)
    || ((pyOr0 row.Intensity_min).gt 20 && (pyOr0 row.Sleep_total_min).lt 60)
    || ((pyOr0 row.Steps).gt 5000 && (pyOr0 row.HR_avg).gt 80 && (pyOr0 row.Sleep_total_min).lt 300)

/-- The gate Python evaluates before rendering a field:
`pd.notna(row.get(k)) and row.get(k, 0) > 0` — present, not NaN, and
strictly positive. -/
def presentPos : Option Val → Bool
  | none => false
  | some Val.nan => false
  | some (Val.num q) => decide (0 < q)

/-- Python `int(x)` on a float: truncation toward zero (only reached on
fields that passed the `presentPos` gate, so never on `none` or NaN). -/
def pyInt : Option Val → ℤ
  | some (Val.num q) => if 0 ≤ q then Rat.floor q else -Rat.floor (-q)
  | _ => 0

/-- Shallow embedding of `vitals_to_text` from
`data/build_health_risk_dataset.py` (lines 32-55): append one phrase per
present-and-positive field, in source order, then join with single spaces, or
return the fixed sentence when nothing was appended. -/
def vitals_to_text (row : Row) : String :=
  let parts : List String := []
  let parts := if presentPos row.HR_avg then
      parts ++ ["HR average " ++ toString (pyInt row.HR_avg) ++ " bpm"] else parts
  let parts := if presentPos row.HR_max then
      parts ++ ["HR max " ++ toString (pyInt row.HR_max) ++ " bpm"] else parts
  let parts := if presentPos row.HR_resting then
      parts ++ ["resting HR " ++ toString (pyInt row.HR_resting) ++ " bpm"] else parts
  let parts := if presentPos row.SpO2_avg then
      parts ++ ["SpO2 " ++ toString (pyInt row.SpO2_avg) ++ " percent"] else parts
  let parts := if presentPos row.Steps then
      parts ++ ["steps " ++ toString (pyInt row.Steps)] else parts
  let parts := if presentPos row.Intensity_min then
      parts ++ ["active " ++ toString (pyInt row.Intensity_min) ++ " minutes"] else parts
  let parts := if presentPos row.Calories then
      parts ++ ["calories " ++ toString (pyInt row.Calories)] else parts
  let parts := if presentPos row.Sleep_total_min then
      parts ++ ["sleep " ++ toString (Int.ediv (pyInt row.Sleep_total_min) 60) ++ "h"
        ++ toString (Int.emod (pyInt row.Sleep_total_min) 60) ++ "m"] else parts
  if parts.isEmpty then "No vital signs recorded." else String.intercalate " " parts

/-- Modelled from the spec's description of the text rendering: the eight
render slots in the fixed order HR average, HR max, resting HR, SpO2, steps,
active minutes, calories, sleep; a slot is filled exactly when its field is
present and positive, and sleep is rendered as whole hours `h` remainder
minutes `m`. -/
def renderSlots (row : Row) : List (Option String) :=
  [ if presentPos row.HR_avg then some ("HR average " ++ toString (pyInt row.HR_avg) ++ " bpm")
      else none
  , if presentPos row.HR_max then some ("HR max " ++ toString (pyInt row.HR_max) ++ " bpm")
      else none
  , if presentPos row.HR_resting then
      some ("resting HR " ++ toString (pyInt row.HR_resting) ++ " bpm") else none
  , if presentPos row.SpO2_avg then some ("SpO2 " ++ toString (pyInt row.SpO2_avg) ++ " percent")
      else none
  , if presentPos row.Steps then some ("steps " ++ toString (pyInt row.Steps)) else none
  , if presentPos row.Intensity_min then
      some ("active " ++ toString (pyInt row.Intensity_min) ++ " minutes") else none
  , if presentPos row.Calories then some ("calories " ++ toString (pyInt row.Calories)) else none
  , if presentPos row.Sleep_total_min then
      some ("sleep " ++ toString (Int.ediv (pyInt row.Sleep_total_min) 60) ++ "h"
        ++ toString (Int.emod (pyInt row.Sleep_total_min) 60) ++ "m") else none ]

/-- Modelled from the spec's words for the text extractor: keep exactly the
filled slots, in their fixed order, and join them with single spaces; if no
slot is filled, the literal no-data sentence. -/
def vitalsTextSpec (row : Row) : String :=
  let pieces := (renderSlots row).filterMap id
  if pieces.isEmpty then "No vital signs recorded." else String.intercalate " " pieces

/-- A row whose eight fields are all plain numbers, in the order
HR average, HR max, resting HR, SpO2, steps, active minutes, calories,
sleep minutes. -/
def mkNumRow (hrAvg hrMax hrRest spo2 steps intensity calories sleep : ℚ) : Row :=
  ⟨some (Val.num hrAvg), some (Val.num hrMax), some (Val.num hrRest), some (Val.num spo2),
    some (Val.num steps), some (Val.num intensity), some (Val.num calories),
    some (Val.num sleep)⟩

/-- The recommendation table of the spec: a fixed 3-entry lookup keyed by the
risk level, defaulting to the green text. -/
def recOf (level : String) : String :=
  if level == "red" then
    "Heat stress or fatigue risk. Rest and rehydrate. Seek shade. Recommend rest in 10 min."
  else if level == "yellow" then
    "Monitor vital signs. Consider rest and hydration soon."
  else
    "Continue normal activity. Stay hydrated."

/-- The spec's Yellow scenario row:
`{hr_avg:88, hr_max:105, spo2_avg:95, steps:5000, intensity_min:25, sleep_total_min:240}`. -/
def yellowScenarioRow : Row :=
  ⟨some (Val.num 88), some (Val.num 105), none, some (Val.num 95), some (Val.num 5000),
    some (Val.num 25), none, some (Val.num 240)⟩

/-- The spec's Green scenario row:
`{hr_avg:62, hr_max:80, spo2_avg:98, steps:2000, sleep_total_min:390}`, active
minutes absent. -/
def greenScenarioRow : Row :=
  ⟨some (Val.num 62), some (Val.num 80), none, some (Val.num 98), some (Val.num 2000),
    none, none, some (Val.num 390)⟩

/-- The spec's Red scenario row:
`{hr_avg:108, hr_max:125, spo2_avg:87, steps:8000, intensity_min:50, sleep_total_min:0}`. -/
def redScenarioRow : Row :=
  ⟨some (Val.num 108), some (Val.num 125), none, some (Val.num 87), some (Val.num 8000),
    some (Val.num 50), none, some (Val.num 0)⟩

/-- A row with steps, calories and sleep but no cardio or respiratory signal. -/
def stepsSleepOnlyRow : Row :=
  ⟨none, none, none, none, some (Val.num 2000), none, some (Val.num 150), some (Val.num 390)⟩

/-- The spec's text-extractor scenario row: `{hr_avg:65, sleep_total_min:90}`. -/
def hrSleepRow : Row :=
  ⟨some (Val.num 65), none, none, none, none, none, none, some (Val.num 90)⟩

/-- The all-zero record of the spec's last text scenario. -/
def allZeroRow : Row := mkNumRow 0 0 0 0 0 0 0 0

/-- Modelled from the claim's normalization: one field value with every
absent, NaN, or non-positive entry replaced by a plain `0`. -/
def zeroed : Option Val → Option Val
  | some (Val.num q) => if 0 < q then some (Val.num q) else some (Val.num 0)
  | _ => some (Val.num 0)

/-- Modelled from the claim's normalization: the row with every absent, NaN,
or non-positive field replaced by `0`. -/
def zeroNormalize (row : Row) : Row :=
  ⟨zeroed row.HR_avg, zeroed row.HR_max, zeroed row.HR_resting, zeroed row.SpO2_avg,
    zeroed row.Steps, zeroed row.Intensity_min, zeroed row.Calories, zeroed row.Sleep_total_min⟩

/-- Whether a field value is anything but NaN. -/
def nanFreeVal : Option Val → Bool
  | some Val.nan => false
  | _ => true

/-- Whether no field of the row holds NaN. -/
def nanFree (row : Row) : Bool :=
  nanFreeVal row.HR_avg && nanFreeVal row.HR_max && nanFreeVal row.HR_resting
    && nanFreeVal row.SpO2_avg && nanFreeVal row.Steps && nanFreeVal row.Intensity_min
    && nanFreeVal row.Calories && nanFreeVal row.Sleep_total_min

/-- A row whose sleep field is NaN while fifty active minutes are recorded:
`pandas` produces such rows for days with activity but no sleep record. -/
def nanSleepRow : Row :=
  ⟨none, none, none, none, none, some (Val.num 50), none, some Val.nan⟩

/-- Helper: the level returned by the classifier is the ordered cascade
no-data, Red, Yellow, default green. -/
theorem assign_level (row : Row) :
    (assign_risk_and_recommendation row).1 =
      if noDataB row then "green"
      else if redB row then "red"
      else if yellowB row then "yellow"
      else "green" := by
  simp only [assign_risk_and_recommendation, noDataB, redB, yellowB]
  split_ifs <;> simp_all

/-- Helper: a value known to be `<= a` is never `> b` for `b` at least `a`. -/
theorem Val.gt_eq_false (v : Val) {a b : ℚ} (hab : a ≤ b) (h : v.le a = true) :
    v.gt b = false := by
  cases v with
  | num q =>
      have hq : q ≤ a := by simpa [Val.le] using h
      simp only [Val.gt, decide_eq_false_iff_not]
      linarith
  | nan => rfl

/-- Helper: a value known to be `<= a` is never `>= b` for `b` above `a`. -/
theorem Val.ge_eq_false (v : Val) {a b : ℚ} (hab : a < b) (h : v.le a = true) :
    v.ge b = false := by
  cases v with
  | num q =>
      have hq : q ≤ a := by simpa [Val.le] using h
      simp only [Val.ge, decide_eq_false_iff_not]
      linarith
  | nan => rfl

/-- Helper: under the no-data guard no Red clause can fire. -/
theorem noData_red (row : Row) (h : noDataB row = true) : redB row = false := by
  obtain ⟨⟨⟨h1, h2⟩, h3⟩, h4⟩ : (((pyOr0 row.HR_avg).le 0 = true ∧ (pyOr0 row.HR_max).le 0 = true)
      ∧ (pyOr0 row.SpO2_avg).le 0 = true) ∧ (pyOr0 row.Intensity_min).le 0 = true := by
    simpa [noDataB, Bool.and_eq_true] using h
  simp [redB, Val.gt_eq_false (pyOr0 row.HR_avg) (by norm_num : (0:ℚ) ≤ 100) h1,
    Val.gt_eq_false (pyOr0 row.HR_max) (by norm_num : (0:ℚ) ≤ 120) h2,
    Val.gt_eq_false (pyOr0 row.SpO2_avg) (le_refl (0:ℚ)) h3,
    Val.gt_eq_false (pyOr0 row.Intensity_min) (by norm_num : (0:ℚ) ≤ 45) h4]

/-- Helper: under the no-data guard no Yellow clause can fire. -/
theorem noData_yellow (row : Row) (h : noDataB row = true) : yellowB row = false := by
  obtain ⟨⟨⟨h1, h2⟩, h3⟩, h4⟩ : (((pyOr0 row.HR_avg).le 0 = true ∧ (pyOr0 row.HR_max).le 0 = true)
      ∧ (pyOr0 row.SpO2_avg).le 0 = true) ∧ (pyOr0 row.Intensity_min).le 0 = true := by
    simpa [noDataB, Bool.and_eq_true] using h
  simp [yellowB, Val.gt_eq_false (pyOr0 row.HR_avg) (by norm_num : (0:ℚ) ≤ 85) h1,
    Val.gt_eq_false (pyOr0 row.HR_avg) (by norm_num : (0:ℚ) ≤ 80) h1,
    Val.gt_eq_false (pyOr0 row.HR_max) (by norm_num : (0:ℚ) ≤ 100) h2,
    Val.ge_eq_false (pyOr0 row.SpO2_avg) (by norm_num : (0:ℚ) < 90) h3,
    Val.gt_eq_false (pyOr0 row.Intensity_min) (by norm_num : (0:ℚ) ≤ 20) h4]

/-- Helper: the classifier answers red exactly when the Red condition holds. -/
theorem assign_red_iff (row : Row) :
    (assign_risk_and_recommendation row).1 = "red" ↔ redB row = true := by
  rw [assign_level]
  cases hn : noDataB row
  · cases hr : redB row
    · cases hy : yellowB row <;> simp
    · simp
  · simp [noData_red row hn]

/-- Helper: the classifier answers yellow exactly when no-data and Red fail
and the Yellow condition holds. -/
theorem assign_yellow_iff (row : Row) :
    (assign_risk_and_recommendation row).1 = "yellow" ↔
      noDataB row = false ∧ redB row = false ∧ yellowB row = true := by
  rw [assign_level]
  cases hn : noDataB row
  · cases hr : redB row
    · cases hy : yellowB row <;> simp
    · simp
  · simp

/-- Helper: the classifier returns the cascade level together with the table
lookup of that level. -/
theorem assign_pair_eq (row : Row) :
    assign_risk_and_recommendation row =
      ((assign_risk_and_recommendation row).1, recOf (assign_risk_and_recommendation row).1) := by
  simp only [assign_risk_and_recommendation, recOf]
  split_ifs <;> simp_all

/-- C1: for every input row the classifier returns level red exactly when one
of the Red clauses holds on the fields as read (absent fields as 0): HR
average above 100, HR max above 120, SpO2 positive and below 90, or more than
45 active minutes on under 30 minutes of sleep; in particular the later
Yellow rule never downgrades an assigned red. -/
theorem claim_C1_red_iff (row : Row) :
    (assign_risk_and_recommendation row).1 = "red" ↔ redB row = true :=
  assign_red_iff row

/-- C2: for every input row the classifier returns level yellow exactly when
the no-data guard fails, no Red clause holds, and some Yellow clause holds;
and the spec's Yellow scenario row yields yellow. -/
theorem claim_C2_yellow_iff :
    (∀ row : Row, (assign_risk_and_recommendation row).1 = "yellow" ↔
        noDataB row = false ∧ redB row = false ∧ yellowB row = true) ∧
      (assign_risk_and_recommendation yellowScenarioRow).1 = "yellow" :=
  ⟨assign_yellow_iff, by decide⟩

/-- C3: a row whose HR average, HR max, SpO2 and active minutes all read as
non-positive is classified green with the green recommendation, whatever its
steps, sleep, calories and resting HR hold. -/
theorem claim_C3_noData_green (row : Row)
    (h1 : (pyOr0 row.HR_avg).le 0 = true) (h2 : (pyOr0 row.HR_max).le 0 = true)
    (h3 : (pyOr0 row.SpO2_avg).le 0 = true) (h4 : (pyOr0 row.Intensity_min).le 0 = true) :
    assign_risk_and_recommendation row = ("green", "Continue normal activity. Stay hydrated.") := by
  unfold assign_risk_and_recommendation
  simp [h1, h2, h3, h4]

/-- Witness for C3: steps, calories and sleep present but no cardio or
respiratory signal is treated as no data. -/
theorem claim_C3_witness :
    assign_risk_and_recommendation stepsSleepOnlyRow =
      ("green", "Continue normal activity. Stay hydrated.") :=
  claim_C3_noData_green stepsSleepOnlyRow (by decide) (by decide) (by decide) (by decide)

/-- C4: when no Red clause and no Yellow clause holds the classifier returns
green; and the spec's Green scenario row yields green. -/
theorem claim_C4_green_default :
    (∀ row : Row, redB row = false → yellowB row = false →
        (assign_risk_and_recommendation row).1 = "green") ∧
      (assign_risk_and_recommendation greenScenarioRow).1 = "green" := by
  refine ⟨?_, by decide⟩
  intro row hr hy
  rw [assign_level]
  simp [hr, hy]

/-- Witness for C4: the Green scenario row satisfies neither condition and is
classified green. -/
theorem claim_C4_witness :
    redB greenScenarioRow = false ∧ yellowB greenScenarioRow = false ∧
      (assign_risk_and_recommendation greenScenarioRow).1 = "green" :=
  ⟨by decide, by decide, claim_C4_green_default.1 greenScenarioRow (by decide) (by decide)⟩

/-- C5: the recommendation returned with every classification is exactly the
fixed 3-entry table entry for the returned level; and the spec's Red scenario
row yields red with exactly the red recommendation string. -/
theorem claim_C5_rec_table :
    (∀ row : Row, (assign_risk_and_recommendation row).2 =
        recOf (assign_risk_and_recommendation row).1) ∧
      assign_risk_and_recommendation redScenarioRow =
        ("red",
          "Heat stress or fatigue risk. Rest and rehydrate. Seek shade. Recommend rest in 10 min.") := by
  refine ⟨?_, by decide⟩
  intro row
  conv_lhs => rw [assign_pair_eq]

/-- C6: the classifier is total and deterministic: every row is mapped,
without failure, to a level among green, yellow and red, and equal inputs
give equal outputs. -/
theorem claim_C6_total :
    (∀ row : Row, (assign_risk_and_recommendation row).1 = "green" ∨
        (assign_risk_and_recommendation row).1 = "yellow" ∨
        (assign_risk_and_recommendation row).1 = "red") ∧
      ∀ row₁ row₂ : Row, row₁ = row₂ →
        assign_risk_and_recommendation row₁ = assign_risk_and_recommendation row₂ := by
  constructor
  · intro row
    rw [assign_level]
    split_ifs <;> simp
  · intro row₁ row₂ h
    rw [h]

/-- Witness for C6 at the all-zero row. -/
theorem claim_C6_witness :
    ((assign_risk_and_recommendation allZeroRow).1 = "green" ∨
        (assign_risk_and_recommendation allZeroRow).1 = "yellow" ∨
        (assign_risk_and_recommendation allZeroRow).1 = "red") ∧
      assign_risk_and_recommendation allZeroRow = assign_risk_and_recommendation allZeroRow :=
  ⟨claim_C6_total.1 allZeroRow, claim_C6_total.2 allZeroRow allZeroRow rfl⟩

/-- C10: two rows that differ only in resting HR and calories are classified
identically — the classifier reads resting HR without using it and never
reads calories. -/
theorem claim_C10_noninterference (a m s st i sl r₁ c₁ r₂ c₂ : Option Val) :
    assign_risk_and_recommendation ⟨a, m, r₁, s, st, i, c₁, sl⟩ =
      assign_risk_and_recommendation ⟨a, m, r₂, s, st, i, c₂, sl⟩ := rfl

/-- C7: on a record whose other fields keep every other clause quiet
(HR max at most 100, SpO2 at least 95 or zero, at most 20 active minutes or
at least 60 sleep minutes, at most 5000 steps), an HR average of exactly 100
is not classified red while 100.01 is; and an HR average of exactly 85 fails
the Yellow heart-rate clause while 85.1 satisfies it. -/
theorem claim_C7_boundary (hrMax hrRest spo2 steps intensity calories sleep : ℚ)
    (hm : hrMax ≤ 100) (hs : 95 ≤ spo2 ∨ spo2 = 0)
    (hi : intensity ≤ 20 ∨ 60 ≤ sleep) (hst : steps ≤ 5000) :
    (assign_risk_and_recommendation
        (mkNumRow 100 hrMax hrRest spo2 steps intensity calories sleep)).1 ≠ "red"
    ∧ (assign_risk_and_recommendation
        (mkNumRow 100.01 hrMax hrRest spo2 steps intensity calories sleep)).1 = "red"
    ∧ (((Val.num 85).gt 85 && (Val.num 85).le 100)
        || ((Val.num hrMax).gt 100 && (Val.num hrMax).le 120)) = false
    ∧ (((Val.num (85.1 : ℚ)).gt 85 && (Val.num (85.1 : ℚ)).le 100)
        || ((Val.num hrMax).gt 100 && (Val.num hrMax).le 120)) = true := by
  have hnm : ¬ (100 : ℚ) < hrMax := not_lt.mpr hm
  refine ⟨?_, ?_, ?_, ?_⟩
  · intro hred
    have hr := (assign_red_iff _).mp hred
    simp only [redB, mkNumRow, pyOr0, Val.gt, Val.lt, Bool.or_eq_true, Bool.and_eq_true,
      decide_eq_true_eq] at hr
    rcases hr with ((h | h) | ⟨h1, h2⟩) | ⟨h1, h2⟩
    · exact absurd h (by norm_num)
    · exact absurd h (not_lt.mpr (by linarith))
    · rcases hs with hs | hs <;> linarith
    · rcases hi with hi | hi <;> linarith
  · apply (assign_red_iff _).mpr
    simp only [redB, mkNumRow, pyOr0, Val.gt, Val.lt, Bool.or_eq_true, Bool.and_eq_true,
      decide_eq_true_eq]
    left; left; left
    norm_num
  · simp [Val.gt, Val.le, hnm]
  · simp only [Val.gt, Val.le, Bool.or_eq_true, Bool.and_eq_true, decide_eq_true_eq]
    left
    constructor <;> norm_num

/-- Witness for C7 at HR max 95, SpO2 98, 10 active minutes, 400 sleep
minutes, 1000 steps. -/
theorem claim_C7_witness :
    (assign_risk_and_recommendation (mkNumRow 100 95 0 98 1000 10 0 400)).1 ≠ "red"
    ∧ (assign_risk_and_recommendation (mkNumRow 100.01 95 0 98 1000 10 0 400)).1 = "red"
    ∧ (((Val.num 85).gt 85 && (Val.num 85).le 100)
        || ((Val.num (95 : ℚ)).gt 100 && (Val.num (95 : ℚ)).le 120)) = false
    ∧ (((Val.num (85.1 : ℚ)).gt 85 && (Val.num (85.1 : ℚ)).le 100)
        || ((Val.num (95 : ℚ)).gt 100 && (Val.num (95 : ℚ)).le 120)) = true :=
  claim_C7_boundary 95 0 98 1000 10 0 400 (by norm_num) (Or.inl (by norm_num))
    (Or.inl (by norm_num)) (by norm_num)

/-- C8: the rendered sentence always equals the spec's fixed-order rendering
of exactly the present-and-positive fields; the HR-and-sleep scenario row
renders to exactly the expected sentence, and the all-zero record renders to
the literal no-data sentence. -/
theorem claim_C8_text :
    (∀ row : Row, vitals_to_text row = vitalsTextSpec row) ∧
      vitals_to_text hrSleepRow = "HR average 65 bpm sleep 1h30m" ∧
      vitals_to_text allZeroRow = "No vital signs recorded." := by
  refine ⟨?_, by decide, by decide⟩
  intro row
  simp only [vitals_to_text, vitalsTextSpec, renderSlots]
  cases h1 : presentPos row.HR_avg <;> cases h2 : presentPos row.HR_max <;>
    cases h3 : presentPos row.HR_resting <;> cases h4 : presentPos row.SpO2_avg <;>
    cases h5 : presentPos row.Steps <;> cases h6 : presentPos row.Intensity_min <;>
    cases h7 : presentPos row.Calories <;> cases h8 : presentPos row.Sleep_total_min <;>
    simp [List.filterMap_cons]

/-- Helper: zero-normalisation never changes whether a field passes the
render gate. -/
theorem zeroed_step (v : Option Val) (g : Option Val → String) (p : List String) :
    (if presentPos (zeroed v) then p ++ [g (zeroed v)] else p)
      = if presentPos v then p ++ [g v] else p := by
  rcases v with _ | w
  · simp [zeroed, presentPos]
  · cases w with
    | num q =>
        by_cases h : 0 < q
        · simp [zeroed, h]
        · simp [zeroed, presentPos, h]
    | nan => simp [zeroed, presentPos]

/-- Helper: the HR-average phrase step commutes with zero-normalisation. -/
theorem zeroed_step_hr_avg (v : Option Val) (p : List String) :
    (if presentPos (zeroed v) then
        p ++ ["HR average " ++ toString (pyInt (zeroed v)) ++ " bpm"] else p)
      = if presentPos v then p ++ ["HR average " ++ toString (pyInt v) ++ " bpm"] else p :=
  zeroed_step v (fun w => "HR average " ++ toString (pyInt w) ++ " bpm") p

/-- Helper: the HR-max phrase step commutes with zero-normalisation. -/
theorem zeroed_step_hr_max (v : Option Val) (p : List String) :
    (if presentPos (zeroed v) then
        p ++ ["HR max " ++ toString (pyInt (zeroed v)) ++ " bpm"] else p)
      = if presentPos v then p ++ ["HR max " ++ toString (pyInt v) ++ " bpm"] else p :=
  zeroed_step v (fun w => "HR max " ++ toString (pyInt w) ++ " bpm") p

/-- Helper: the resting-HR phrase step commutes with zero-normalisation. -/
theorem zeroed_step_hr_resting (v : Option Val) (p : List String) :
    (if presentPos (zeroed v) then
        p ++ ["resting HR " ++ toString (pyInt (zeroed v)) ++ " bpm"] else p)
      = if presentPos v then p ++ ["resting HR " ++ toString (pyInt v) ++ " bpm"] else p :=
  zeroed_step v (fun w => "resting HR " ++ toString (pyInt w) ++ " bpm") p

/-- Helper: the SpO2 phrase step commutes with zero-normalisation. -/
theorem zeroed_step_spo2 (v : Option Val) (p : List String) :
    (if presentPos (zeroed v) then
        p ++ ["SpO2 " ++ toString (pyInt (zeroed v)) ++ " percent"] else p)
      = if presentPos v then p ++ ["SpO2 " ++ toString (pyInt v) ++ " percent"] else p :=
  zeroed_step v (fun w => "SpO2 " ++ toString (pyInt w) ++ " percent") p

/-- Helper: the steps phrase step commutes with zero-normalisation. -/
theorem zeroed_step_steps (v : Option Val) (p : List String) :
    (if presentPos (zeroed v) then p ++ ["steps " ++ toString (pyInt (zeroed v))] else p)
      = if presentPos v then p ++ ["steps " ++ toString (pyInt v)] else p :=
  zeroed_step v (fun w => "steps " ++ toString (pyInt w)) p

/-- Helper: the active-minutes phrase step commutes with zero-normalisation. -/
theorem zeroed_step_active (v : Option Val) (p : List String) :
    (if presentPos (zeroed v) then
        p ++ ["active " ++ toString (pyInt (zeroed v)) ++ " minutes"] else p)
      = if presentPos v then p ++ ["active " ++ toString (pyInt v) ++ " minutes"] else p :=
  zeroed_step v (fun w => "active " ++ toString (pyInt w) ++ " minutes") p

/-- Helper: the calories phrase step commutes with zero-normalisation. -/
theorem zeroed_step_calories (v : Option Val) (p : List String) :
    (if presentPos (zeroed v) then p ++ ["calories " ++ toString (pyInt (zeroed v))] else p)
      = if presentPos v then p ++ ["calories " ++ toString (pyInt v)] else p :=
  zeroed_step v (fun w => "calories " ++ toString (pyInt w)) p

/-- Helper: the sleep phrase step commutes with zero-normalisation. -/
theorem zeroed_step_sleep (v : Option Val) (p : List String) :
    (if presentPos (zeroed v) then
        p ++ ["sleep " ++ toString (Int.ediv (pyInt (zeroed v)) 60) ++ "h"
          ++ toString (Int.emod (pyInt (zeroed v)) 60) ++ "m"] else p)
      = if presentPos v then
        p ++ ["sleep " ++ toString (Int.ediv (pyInt v) 60) ++ "h"
          ++ toString (Int.emod (pyInt v) 60) ++ "m"] else p :=
  zeroed_step v
    (fun w => "sleep " ++ toString (Int.ediv (pyInt w) 60) ++ "h"
      ++ toString (Int.emod (pyInt w) 60) ++ "m") p

/-- Helper: the rendered sentence is unchanged by zero-normalisation, NaN
fields included: the render gate rejects absent, NaN and non-positive fields
alike. -/
theorem vitals_zeroNormalize (row : Row) :
    vitals_to_text (zeroNormalize row) = vitals_to_text row := by
  simp only [vitals_to_text, zeroNormalize]
  rw [zeroed_step_hr_avg, zeroed_step_hr_max, zeroed_step_hr_resting, zeroed_step_spo2,
    zeroed_step_steps, zeroed_step_active, zeroed_step_calories, zeroed_step_sleep]

/-- Helper: on a NaN-free field, zero-normalisation preserves every strict
lower-bound test against a non-negative threshold. -/
theorem zeroed_gt (v : Option Val) (t : ℚ) (ht : 0 ≤ t) (hv : nanFreeVal v = true) :
    (pyOr0 (zeroed v)).gt t = (pyOr0 v).gt t := by
  rcases v with _ | w
  · simp [zeroed, pyOr0]
  · cases w with
    | num q =>
        by_cases h : 0 < q
        · simp [zeroed, h]
        · have hq : q ≤ 0 := not_lt.mp h
          simp only [zeroed, pyOr0, if_neg h, Val.gt]
          have e1 : ¬ t < 0 := not_lt.mpr ht
          have e2 : ¬ t < q := not_lt.mpr (hq.trans ht)
          simp [e1, e2]
    | nan => simp [nanFreeVal] at hv

/-- Helper: on a NaN-free field, zero-normalisation preserves every strict
upper-bound test against a positive threshold. -/
theorem zeroed_lt (v : Option Val) (t : ℚ) (ht : 0 < t) (hv : nanFreeVal v = true) :
    (pyOr0 (zeroed v)).lt t = (pyOr0 v).lt t := by
  rcases v with _ | w
  · simp [zeroed, pyOr0]
  · cases w with
    | num q =>
        by_cases h : 0 < q
        · simp [zeroed, h]
        · have hq : q ≤ 0 := not_lt.mp h
          simp only [zeroed, pyOr0, if_neg h, Val.lt]
          have e1 : q < t := lt_of_le_of_lt hq ht
          simp [ht, e1]
    | nan => simp [nanFreeVal] at hv

/-- Helper: on a NaN-free field, zero-normalisation preserves every weak
upper-bound test against a non-negative threshold. -/
theorem zeroed_le (v : Option Val) (t : ℚ) (ht : 0 ≤ t) (hv : nanFreeVal v = true) :
    (pyOr0 (zeroed v)).le t = (pyOr0 v).le t := by
  rcases v with _ | w
  · simp [zeroed, pyOr0]
  · cases w with
    | num q =>
        by_cases h : 0 < q
        · simp [zeroed, h]
        · have hq : q ≤ 0 := not_lt.mp h
          simp only [zeroed, pyOr0, if_neg h, Val.le]
          simp [ht, hq.trans ht]
    | nan => simp [nanFreeVal] at hv

/-- Helper: on a NaN-free field, zero-normalisation preserves every weak
lower-bound test against a positive threshold. -/
theorem zeroed_ge (v : Option Val) (t : ℚ) (ht : 0 < t) (hv : nanFreeVal v = true) :
    (pyOr0 (zeroed v)).ge t = (pyOr0 v).ge t := by
  rcases v with _ | w
  · simp [zeroed, pyOr0]
  · cases w with
    | num q =>
        by_cases h : 0 < q
        · simp [zeroed, h]
        · have hq : q ≤ 0 := not_lt.mp h
          simp only [zeroed, pyOr0, if_neg h, Val.ge]
          have e1 : ¬ t ≤ 0 := not_le.mpr ht
          have e2 : ¬ t ≤ q := not_le.mpr (lt_of_le_of_lt hq ht)
          simp [e1, e2]
    | nan => simp [nanFreeVal] at hv

/-- Helper: on a NaN-free row the classification is unchanged by
zero-normalisation: every threshold the rules use treats an absent or
non-positive reading exactly like a zero one. -/
theorem assign_zeroNormalize (row : Row) (h : nanFree row = true) :
    assign_risk_and_recommendation (zeroNormalize row) = assign_risk_and_recommendation row := by
  simp only [nanFree, Bool.and_eq_true] at h
  obtain ⟨⟨⟨⟨⟨⟨⟨hA, hM⟩, hR⟩, hS⟩, hSt⟩, hI⟩, hC⟩, hSl⟩ := h
  simp only [assign_risk_and_recommendation, zeroNormalize]
  simp only [zeroed_le row.HR_avg 0 le_rfl hA,
    zeroed_gt row.HR_avg 100 (by norm_num) hA,
    zeroed_gt row.HR_avg 85 (by norm_num) hA,
    zeroed_le row.HR_avg 100 (by norm_num) hA,
    zeroed_gt row.HR_avg 80 (by norm_num) hA,
    zeroed_le row.HR_max 0 le_rfl hM,
    zeroed_gt row.HR_max 120 (by norm_num) hM,
    zeroed_gt row.HR_max 100 (by norm_num) hM,
    zeroed_le row.HR_max 120 (by norm_num) hM,
    zeroed_le row.SpO2_avg 0 le_rfl hS,
    zeroed_gt row.SpO2_avg 0 le_rfl hS,
    zeroed_lt row.SpO2_avg 90 (by norm_num) hS,
    zeroed_ge row.SpO2_avg 90 (by norm_num) hS,
    zeroed_lt row.SpO2_avg 95 (by norm_num) hS,
    zeroed_le row.Intensity_min 0 le_rfl hI,
    zeroed_gt row.Intensity_min 45 (by norm_num) hI,
    zeroed_gt row.Intensity_min 20 (by norm_num) hI,
    zeroed_lt row.Sleep_total_min 30 (by norm_num) hSl,
    zeroed_lt row.Sleep_total_min 60 (by norm_num) hSl,
    zeroed_lt row.Sleep_total_min 300 (by norm_num) hSl,
    zeroed_gt row.Steps 5000 (by norm_num) hSt]

/-- C9 counterexample: a row with fifty active minutes and a NaN sleep field
is classified green, while the row with its absent, NaN and non-positive
fields replaced by 0 is classified red — NaN fails the `sleep_min < 30` test
that 0 passes, so the classifier's output on the raw row differs from its
output on the zero-normalised row. -/
theorem claim_C9_counterexample :
    ¬ (assign_risk_and_recommendation nanSleepRow =
        assign_risk_and_recommendation (zeroNormalize nanSleepRow)) ∧
      (assign_risk_and_recommendation nanSleepRow).1 = "green" ∧
      (assign_risk_and_recommendation (zeroNormalize nanSleepRow)).1 = "red" := by
  decide

/-- C9 amended: missing or non-positive field values are normalized to 0
rather than rejected — neither function raises any error, vitals_to_text
returns the same output as on the fully zero-replaced mapping for every
input (NaN fields included), and assign_risk_and_recommendation does so for
every input without NaN fields; a NaN field can change the classification,
since NaN fails every comparison. -/
theorem claim_C9_normalization :
    (∀ row : Row, vitals_to_text (zeroNormalize row) = vitals_to_text row) ∧
      ∀ row : Row, nanFree row = true →
        assign_risk_and_recommendation (zeroNormalize row) =
          assign_risk_and_recommendation row :=
  ⟨vitals_zeroNormalize, assign_zeroNormalize⟩

/-- Witness for C9 at the Green scenario row, which has absent fields and no
NaN. -/
theorem claim_C9_witness :
    nanFree greenScenarioRow = true ∧
      assign_risk_and_recommendation (zeroNormalize greenScenarioRow) =
        assign_risk_and_recommendation greenScenarioRow :=
  ⟨by decide, claim_C9_normalization.2 greenScenarioRow (by decide)⟩

end ElixirEdge
